import Mathlib

/-
  Verification of the renderer abstraction and backend-lifecycle engine.

  Shallow embedding of:
  - src/Engine/src/RendererBackendSelection.cpp  (backend name parsing, attempt order)
  - src/Engine/src/Application.cpp               (CreateRenderer selection loop, Run-loop
                                                  blank-frame fallback supervisor)
  - src/Engine/src/NativeDx12Renderer.cpp        (SRV descriptor slot allocator, texture
                                                  cache refresh)
  - src/Engine/src/SdlRendererBase.cpp           (transparency sort, composed-texture
                                                  cache and per-pixel composition,
                                                  transparency flag)

  Machine floats are modelled as rationals (ℚ); float bit patterns used as cache-key
  components (std::bit_cast<uint32_t>) are modelled by the clamped rational value itself,
  which is faithful on the clamp range [0,1] where distinct values have distinct bit
  patterns.  GPU handles (SDL_Texture*, descriptor handles) are modelled as natural-number
  ids drawn from a monotone supply.
-/

namespace EngineSpec

/-- std::clamp on rationals: `std::clamp(v, lo, hi)` returns `lo` if `v < lo`,
`hi` if `hi < v`, else `v`. -/
def clampF (v lo hi : ℚ) : ℚ :=
  if v < lo then lo else if hi < v then hi else v

/-! ## Backend selection (RendererBackendSelection.cpp) -/

/-- The backend enum from RendererBackendSelection.hpp. -/
inductive RendererBackend where
  | Dx12
  | Vulkan
  | Software
deriving DecidableEq, Repr

/-- std::tolower on an unsigned char in the C locale: ASCII uppercase letters map to
lowercase, all other bytes are unchanged. -/
def asciiToLower (c : Char) : Char :=
  if 'A' ≤ c ∧ c ≤ 'Z' then Char.ofNat (c.toNat + 32) else c

/-- RendererBackendName from RendererBackendSelection.cpp. -/
def rendererBackendName (backend : RendererBackend) : String :=
  match backend with
  | .Dx12 => "dx12"
  | .Vulkan => "vulkan"
  | .Software => "software"

/-- ParseRendererBackend from RendererBackendSelection.cpp: lowercase the input,
return nullopt for the empty string, else match the three known names. -/
def parseRendererBackend (value : String) : Option RendererBackend :=
  let normalized := value.map asciiToLower
  if normalized = "" then none
  else if normalized = "dx12" then some .Dx12
  else if normalized = "vulkan" then some .Vulkan
  else if normalized = "software" then some .Software
  else none

/-- BuildRendererAttemptOrder from RendererBackendSelection.cpp. -/
def buildRendererAttemptOrder (requestedBackend : Option RendererBackend) :
    List RendererBackend :=
  match requestedBackend with
  | some b => [b]
  | none => [.Dx12, .Vulkan, .Software]

/-! ## Renderer creation loop (Application::CreateRenderer) -/

/-- The three per-backend captured error strings of Application::CreateRenderer. -/
structure SelectionErrors where
  dx12Error : String
  vulkanError : String
  softwareError : String
deriving DecidableEq, Repr

/-- Storing a failed attempt's error into the slot matching the backend, as the
loop tail of Application::CreateRenderer does. -/
def storeAttemptError (errs : SelectionErrors) (backend : RendererBackend)
    (message : String) : SelectionErrors :=
  match backend with
  | .Dx12 => { errs with dx12Error := message }
  | .Vulkan => { errs with vulkanError := message }
  | .Software => { errs with softwareError := message }

/-- Reading back the captured error for the requested backend, as the
requested-failure branch of Application::CreateRenderer does. -/
def capturedError (errs : SelectionErrors) (backend : RendererBackend) : String :=
  match backend with
  | .Dx12 => errs.dx12Error
  | .Vulkan => errs.vulkanError
  | .Software => errs.softwareError

/-- The `for (backend : backendOrder)` loop of Application::CreateRenderer.
`initOk b` abstracts whether `tryBackend(b, err)` succeeds and `initErr b` the
error it writes on failure.  Returns the first successful backend (if any), the
captured errors, and the list of backends actually attempted. -/
def tryBackendsInOrder (initOk : RendererBackend → Bool)
    (initErr : RendererBackend → String) :
    List RendererBackend → SelectionErrors → List RendererBackend →
    Option RendererBackend × SelectionErrors × List RendererBackend
  | [], errs, attempted => (none, errs, attempted)
  | b :: rest, errs, attempted =>
    if initOk b then (some b, errs, attempted ++ [b])
    else tryBackendsInOrder initOk initErr rest
      (storeAttemptError errs b (initErr b)) (attempted ++ [b])

/-- Outcome of Application::CreateRenderer: success flag, active backend, which
backends were attempted, and the final status message. -/
structure CreateRendererResult where
  success : Bool
  active : Option RendererBackend
  attempted : List RendererBackend
  statusMessage : String
deriving DecidableEq, Repr

/-- Application::CreateRenderer after the override has been parsed: build the
attempt order, try each backend in order, and on total failure report either the
requested backend's captured error (override present) or the concatenation of
all three errors (auto-detect). -/
def createRenderer (initOk : RendererBackend → Bool)
    (initErr : RendererBackend → String) (requested : Option RendererBackend)
    (requestedName : String) : CreateRendererResult :=
  let order := buildRendererAttemptOrder requested
  let r := tryBackendsInOrder initOk initErr order ⟨"", "", ""⟩ []
  match r.1 with
  | some b =>
    { success := true, active := some b, attempted := r.2.2
      statusMessage :=
        match requested with
        | some _ => "Using renderer backend from ENGINE_RENDERER=" ++
            rendererBackendName b ++ "."
        | none =>
          match b with
          | .Dx12 => ""
          | .Vulkan => "DirectX 12 failed, using Vulkan fallback."
          | .Software => "Hardware backends unavailable, using software fallback renderer." }
  | none =>
    match requested with
    | some rb =>
      { success := false, active := none, attempted := r.2.2
        statusMessage := "Requested renderer backend failed. ENGINE_RENDERER=" ++
          requestedName ++ ", error: " ++ capturedError r.2.1 rb }
    | none =>
      { success := false, active := none, attempted := r.2.2
        statusMessage := "Failed to create renderer. DX12: " ++ r.2.1.dx12Error ++
          " | Vulkan: " ++ r.2.1.vulkanError ++ " | Software: " ++ r.2.1.softwareError }

/-! ## SRV descriptor slot allocator (NativeDx12Renderer.cpp) -/

/-- kSrvDescriptorCount from NativeDx12Renderer.cpp: fixed SRV heap capacity. -/
def kSrvDescriptorCount : Nat := 64

/-- Allocator state: `srvNextFreeIndex` is the high-water mark, `srvFreeList` the
LIFO free list (std::vector used as a stack; the most recently pushed index is
the list head here, matching back()/pop_back()/push_back()). -/
structure SrvAllocator where
  srvNextFreeIndex : Nat
  srvFreeList : List Nat
deriving DecidableEq, Repr

/-- Allocator state right after initialization: `srvNextFreeIndex = 1` because
slot 0 is reserved for the permanent ImGui font SRV
(`fontSrvCpuDescriptor` takes the heap start). -/
def initSrvAllocator : SrvAllocator := ⟨1, []⟩

/-- AllocateSrvDescriptor: pop the free list if non-empty, else advance the
high-water mark, failing once it has reached kSrvDescriptorCount.  The returned
slot handle is the descriptor index (the CPU/GPU handle is the heap base plus
index times increment, a bijection on indices). -/
def allocateSrvDescriptor (s : SrvAllocator) : Option Nat × SrvAllocator :=
  match s.srvFreeList with
  | i :: rest => (some i, { s with srvFreeList := rest })
  | [] =>
    if kSrvDescriptorCount ≤ s.srvNextFreeIndex then (none, s)
    else (some s.srvNextFreeIndex, { s with srvNextFreeIndex := s.srvNextFreeIndex + 1 })

/-- FreeSrvDescriptor: recover the index from the handle (out-of-range or
below-base handles are silently ignored) and push it onto the free list. -/
def freeSrvDescriptor (s : SrvAllocator) (descriptorIndex : Nat) : SrvAllocator :=
  if descriptorIndex < kSrvDescriptorCount then
    { s with srvFreeList := descriptorIndex :: s.srvFreeList }
  else s

/-- A sequence of n allocations with no intervening frees: the list of results
in order, and the final allocator state. -/
def allocateSrvN : Nat → SrvAllocator → List (Option Nat) × SrvAllocator
  | 0, s => ([], s)
  | n + 1, s =>
    let r := allocateSrvDescriptor s
    let rest := allocateSrvN n r.2
    (r.1 :: rest.1, rest.2)

/-! ## Model data (ModelData.hpp) -/

/-- ModelSubmesh from ModelData.hpp.  Texture indices are int32 (negative means
"none"); material scalars are floats modelled as ℚ. -/
structure ModelSubmesh where
  indexStart : Nat
  indexCount : Nat
  textureIndex : Int
  opacityTextureIndex : Int
  normalTextureIndex : Int
  emissiveTextureIndex : Int
  specularTextureIndex : Int
  opacity : ℚ
  alphaCutoff : ℚ
  isTransparent : Bool
  alphaCutoutEnabled : Bool
  opacityTextureInverted : Bool
deriving DecidableEq, Repr

/-- ModelData from ModelData.hpp, restricted to the fields the renderer core
reads (animations and source-path strings are carried but unused here). -/
structure ModelData where
  positions : List (ℚ × ℚ × ℚ)
  texCoords : List (ℚ × ℚ)
  indices : List Nat
  texturePaths : List String
  submeshes : List ModelSubmesh
deriving DecidableEq, Repr

/-- ModelData::IsValid: non-empty positions and non-empty indices. -/
def modelIsValid (m : ModelData) : Bool :=
  !m.positions.isEmpty && !m.indices.isEmpty

/-! ## Transparency sort (SdlRendererBase::RenderModelWireframe) -/

/-- TexturedTriangle from SdlRendererBase.cpp, restricted to the fields the sort
comparator reads plus the texture handle (the three SDL_Vertex values do not
participate in ordering). -/
structure TexturedTriangle where
  texture : Nat
  depth : ℚ
  isTransparent : Bool
deriving DecidableEq, Repr

/-- The std::sort comparator at SdlRendererBase.cpp:404-409: when transparency
flags differ the opaque one precedes; otherwise `a.depth > b.depth`. -/
def texturedTriangleLess (a b : TexturedTriangle) : Bool :=
  if a.isTransparent ≠ b.isTransparent then !a.isTransparent
  else decide (b.depth < a.depth)

/-- The non-strict order induced by the comparator: `a` may precede `b` exactly
when the comparator does not demand `b` before `a`.  std::sort guarantees its
output is sorted with respect to this relation. -/
def texturedTriangleLe (a b : TexturedTriangle) : Prop :=
  texturedTriangleLess b a = false

instance : DecidableRel texturedTriangleLe := fun a b =>
  inferInstanceAs (Decidable (texturedTriangleLess b a = false))

/-- The transparency sort: any comparator-consistent sort of the primitive list
(std::sort output is one such; insertion sort realizes the relation exactly). -/
def sortTexturedTriangles (l : List TexturedTriangle) : List TexturedTriangle :=
  List.insertionSort texturedTriangleLe l

instance : IsTotal TexturedTriangle texturedTriangleLe where
  total a b := by
    unfold texturedTriangleLe texturedTriangleLess
    by_cases hf : b.isTransparent = a.isTransparent
    · rcases le_total a.depth b.depth with h | h
      · right
        simp [hf.symm, not_lt.mpr h]
      · left
        simp [hf, not_lt.mpr h]
    · cases ha : a.isTransparent
      · have hb : b.isTransparent = true := by
          cases hbv : b.isTransparent
          · rw [hbv, ha] at hf; exact absurd rfl hf
          · rfl
        left
        simp [ha, hb]
      · have hb : b.isTransparent = false := by
          cases hbv : b.isTransparent
          · rfl
          · rw [hbv, ha] at hf; exact absurd rfl hf
        right
        simp [ha, hb]

instance : IsTrans TexturedTriangle texturedTriangleLe where
  trans a b c h1 h2 := by
    unfold texturedTriangleLe texturedTriangleLess at h1 h2 ⊢
    cases ha : a.isTransparent <;> cases hb : b.isTransparent <;>
      cases hc : c.isTransparent <;> simp_all <;> linarith

/-! ## Transparency flag (SdlRendererBase::RenderModelWireframe) -/

/-- submeshUsesOpacityTexture at SdlRendererBase.cpp:389. -/
def submeshUsesOpacityTexture (submesh : ModelSubmesh) : Bool :=
  decide (0 ≤ submesh.opacityTextureIndex)

/-- submeshIsTransparent at SdlRendererBase.cpp:390-394: the flag passed into
appendTriangles. -/
def submeshIsTransparentSdl (submesh : ModelSubmesh) : Bool :=
  submesh.isTransparent || submesh.alphaCutoutEnabled ||
    submeshUsesOpacityTexture submesh || decide (submesh.opacity < mkRat 999 1000)

/-- The per-triangle flag at SdlRendererBase.cpp:358:
`isTransparent || clampedOpacity < 0.999f`, where the appendTriangles opacity
argument is submesh.opacity and clampedOpacity clamps it to [0,1]. -/
def triangleIsTransparentSdl (submesh : ModelSubmesh) : Bool :=
  submeshIsTransparentSdl submesh ||
    decide (clampF submesh.opacity 0 1 < mkRat 999 1000)

/-- Modelled from the spec (claim C7's formula, for comparison with the code):
a transparency flag that also includes the resolved texture's transparency
hint as a disjunct. -/
def claimTriangleFlagC7 (submesh : ModelSubmesh) (textureTransparencyHint : Bool) : Bool :=
  submesh.isTransparent || submesh.alphaCutoutEnabled ||
    submeshUsesOpacityTexture submesh || textureTransparencyHint ||
    decide (submesh.opacity < mkRat 999 1000)

/-! ## Composed-texture cache (SdlRendererBase.cpp) -/

/-- ComposedTextureKey from SdlRendererBase.hpp.  The float bit patterns
(std::bit_cast of the clamped scalars) are modelled by the clamped rational
values themselves. -/
structure ComposedTextureKey where
  colorTextureIndex : Int
  opacityTextureIndex : Int
  opacityBits : ℚ
  cutoffBits : ℚ
  useCutout : Bool
  invertOpacityTexture : Bool
deriving DecidableEq, Repr

/-- KeysEqual at SdlRendererBase.cpp:268-275: field-wise comparison. -/
def keysEqual (left right : ComposedTextureKey) : Bool :=
  decide (left.colorTextureIndex = right.colorTextureIndex) &&
  decide (left.opacityTextureIndex = right.opacityTextureIndex) &&
  decide (left.opacityBits = right.opacityBits) &&
  decide (left.cutoffBits = right.cutoffBits) &&
  (left.useCutout == right.useCutout) &&
  (left.invertOpacityTexture == right.invertOpacityTexture)

/-- ComposedTextureEntry from SdlRendererBase.hpp: key plus the synthesized
texture handle (only successfully created, non-null textures are cached). -/
structure ComposedTextureEntry where
  key : ComposedTextureKey
  texture : Nat
deriving DecidableEq, Repr

/-- Renderer-owned texture cache state of SdlRendererBase: per-path base
textures (none for a path whose decode produced no texture), per-path decoded
surfaces (true when valid pixel data is retained), the composed-texture cache,
and a fresh-handle supply standing for SDL_CreateTextureFromSurface. -/
structure SdlTextureCache where
  modelTextures : List (Option Nat)
  modelTextureSurfaces : List Bool
  composedTextures : List ComposedTextureEntry
  nextTextureHandle : Nat
deriving DecidableEq, Repr

/-- The needsComposedTexture test at SdlRendererBase.cpp:507-511. -/
def needsComposedTexture (submesh : ModelSubmesh) : Bool :=
  decide (0 ≤ submesh.opacityTextureIndex) || submesh.alphaCutoutEnabled ||
    submesh.opacityTextureInverted || decide (submesh.opacity < mkRat 999 1000)

/-- The composition key built at SdlRendererBase.cpp:516-522. -/
def composedKeyFor (submesh : ModelSubmesh) : ComposedTextureKey :=
  { colorTextureIndex := submesh.textureIndex
    opacityTextureIndex := submesh.opacityTextureIndex
    opacityBits := clampF submesh.opacity 0 1
    cutoffBits := clampF submesh.alphaCutoff 0 1
    useCutout := submesh.alphaCutoutEnabled
    invertOpacityTexture := submesh.opacityTextureInverted }

/-- The cache search loop at SdlRendererBase.cpp:524-528 (cached entries always
hold non-null textures, so the entry.texture guard is vacuous here). -/
def findComposedEntry : List ComposedTextureEntry → ComposedTextureKey → Option Nat
  | [], _ => none
  | e :: rest, key =>
    if keysEqual e.key key then some e.texture else findComposedEntry rest key

/-- Whether CreateComposedTexture (SdlRendererBase.cpp:539-602) succeeds: the
renderer exists (assumed), the color texture index is a valid surface slot and
that surface holds valid pixel data; texture creation from the composed surface
is modelled as succeeding. -/
def canCreateComposedTexture (st : SdlTextureCache) (submesh : ModelSubmesh) : Bool :=
  decide (0 ≤ submesh.textureIndex) &&
  decide (submesh.textureIndex.toNat < st.modelTextureSurfaces.length) &&
  st.modelTextureSurfaces.getD submesh.textureIndex.toNat false

/-- ResolveSubmeshTexture at SdlRendererBase.cpp:502-537: nullptr for an invalid
color index; the base texture when no composition is needed; otherwise a cache
lookup by key, synthesizing and caching a fresh texture on a miss (falling back
to the base texture when synthesis fails, with nothing cached). -/
def resolveSubmeshTexture (st : SdlTextureCache) (submesh : ModelSubmesh) :
    Option Nat × SdlTextureCache :=
  if submesh.textureIndex < 0 ∨ st.modelTextures.length ≤ submesh.textureIndex.toNat then
    (none, st)
  else if needsComposedTexture submesh = false then
    (st.modelTextures.getD submesh.textureIndex.toNat none, st)
  else
    match findComposedEntry st.composedTextures (composedKeyFor submesh) with
    | some t => (some t, st)
    | none =>
      if canCreateComposedTexture st submesh then
        (some st.nextTextureHandle,
         { st with
            composedTextures :=
              st.composedTextures ++ [⟨composedKeyFor submesh, st.nextTextureHandle⟩]
            nextTextureHandle := st.nextTextureHandle + 1 })
      else (st.modelTextures.getD submesh.textureIndex.toNat none, st)

/-- The six material fields of claim C5, in key order. -/
def submeshSixFields (submesh : ModelSubmesh) : Int × Int × ℚ × ℚ × Bool × Bool :=
  (submesh.textureIndex, submesh.opacityTextureIndex, submesh.opacity,
   submesh.alphaCutoff, submesh.alphaCutoutEnabled, submesh.opacityTextureInverted)

/-! ## Composed-texture synthesis (SdlRendererBase::CreateComposedTexture) -/

/-- An SDL surface in RGBA32 format: dimensions plus byte access
`pix x y channel` (channels 0..3 are R,G,B,A); the pitch-based byte addressing
of the source is abstracted to indexed access. -/
structure SdlSurface where
  w : Nat
  h : Nat
  pix : Nat → Nat → Nat → Nat

/-- std::clamp on integers. -/
def clampI (v lo hi : Int) : Int :=
  if v < lo then lo else if hi < v then hi else v

/-- SampleSurfaceChannelNearest at SdlRendererBase.cpp:49-59: 255 for a missing
or degenerate surface or an out-of-range channel, else the byte at the
coordinate clamped into the surface. -/
def sampleSurfaceChannelNearest (surface : Option SdlSurface) (x y : Int)
    (channelIndex : Int) : Nat :=
  match surface with
  | none => 255
  | some s =>
    if s.w = 0 ∨ s.h = 0 ∨ channelIndex < 0 ∨ 3 < channelIndex then 255
    else
      s.pix (clampI x 0 (s.w - 1)).toNat (clampI y 0 (s.h - 1)).toNat
        channelIndex.toNat

/-- One output RGBA pixel. -/
structure Rgba where
  r : Nat
  g : Nat
  b : Nat
  a : Nat
deriving DecidableEq, Repr

/-- static_cast<uint8_t> of a non-negative float below 256: truncation. -/
def ratToByte (q : ℚ) : Nat := q.floor.toNat

/-- The per-pixel body of CreateComposedTexture (SdlRendererBase.cpp:565-591):
RGB copied from the color surface; alpha is the color pixel's alpha times the
clamped submesh opacity times the (optionally inverted) opacity sample, clamped
to [0,1], zeroed under the cutout threshold, quantized to a byte with +0.5
rounding. -/
def composedPixel (submesh : ModelSubmesh) (colorSurface : SdlSurface)
    (opacitySurface : Option SdlSurface) (x y : Nat) : Rgba :=
  let clampedOpacity := clampF submesh.opacity 0 1
  let clampedCutoff := clampF submesh.alphaCutoff 0 1
  let opacityX : Nat :=
    match opacitySurface with
    | some os => x * os.w / max colorSurface.w 1
    | none => 0
  let opacityY : Nat :=
    match opacitySurface with
    | some os => y * os.h / max colorSurface.h 1
    | none => 0
  let opacitySample0 : ℚ :=
    match opacitySurface with
    | some _ =>
      (sampleSurfaceChannelNearest opacitySurface opacityX opacityY 0 : ℚ) / 255
    | none => 1
  let opacitySample :=
    if submesh.opacityTextureInverted then 1 - opacitySample0 else opacitySample0
  let colorAlpha : ℚ := (colorSurface.pix x y 3 : ℚ) / 255
  let finalAlpha0 :=
    clampF (colorAlpha * clampedOpacity * clampF opacitySample 0 1) 0 1
  let finalAlpha :=
    if submesh.alphaCutoutEnabled ∧ finalAlpha0 < clampedCutoff then 0
    else finalAlpha0
  { r := colorSurface.pix x y 0
    g := colorSurface.pix x y 1
    b := colorSurface.pix x y 2
    a := ratToByte (finalAlpha * 255 + 1 / 2) }

/-- Modelled from the spec (claim C6's alpha formula, for comparison with the
code): the color pixel's alpha times the submesh opacity times the (optionally
inverted) opacity sample at the nearest corresponding coordinate, clamped to
[0,1], zeroed below the cutoff when cutout is enabled. -/
def specComposedAlphaC6 (submesh : ModelSubmesh) (colorSurface : SdlSurface)
    (opacitySurface : SdlSurface) (x y : Nat) : ℚ :=
  let sample0 : ℚ :=
    (opacitySurface.pix (x * opacitySurface.w / colorSurface.w)
      (y * opacitySurface.h / colorSurface.h) 0 : ℚ) / 255
  let sample :=
    if submesh.opacityTextureInverted then 1 - sample0 else sample0
  let product :=
    clampF ((colorSurface.pix x y 3 : ℚ) / 255 * submesh.opacity * sample) 0 1
  if submesh.alphaCutoutEnabled ∧ product < submesh.alphaCutoff then 0
  else product

/-! ## DX12 texture-cache refresh (NativeDx12Renderer::EnsureModelTexturesUploaded) -/

/-- DecodedImageData: RGBA pixel bytes row by row. -/
structure DecodedImageData where
  width : Nat
  height : Nat
  pixels : List Nat
deriving DecidableEq, Repr

/-- The alpha scan at NativeDx12Renderer.cpp:904-909: any alpha byte
(offsets 3, 7, 11, ...) below 250 marks the texture as transparent. -/
def imageHasTransparency (pixels : List Nat) : Bool :=
  pixels.enum.any fun p => decide (p.1 % 4 = 3) && decide (p.2 < 250)

/-- CachedModelTexture, restricted to the CPU-visible fields (the GPU resource
and descriptor handles are owned elsewhere and do not affect cache logic). -/
structure CachedModelTexture where
  path : String
  hasTransparency : Bool
deriving DecidableEq, Repr

/-- The DX12 renderer's texture-cache state: the cached path list and the cached
texture entries, pushed in lockstep. -/
structure Dx12TextureCache where
  modelTexturePaths : List String
  modelTextures : List CachedModelTexture
deriving DecidableEq, Repr

/-- The empty cache (state right after ReleaseModelTextures). -/
def emptyDx12Cache : Dx12TextureCache := ⟨[], []⟩

/-- The per-path upload loop of EnsureModelTexturesUploaded
(NativeDx12Renderer.cpp:893-1011): decode each path in order; on a decode
failure return false immediately, leaving the entries accumulated so far in
place.  GPU resource creation and upload are modelled as succeeding (their
failure paths return false the same way). -/
def uploadTexturesLoop (decode : String → Option DecodedImageData) :
    List String → Dx12TextureCache → Bool × Dx12TextureCache
  | [], acc => (true, acc)
  | p :: rest, acc =>
    match decode p with
    | none => (false, acc)
    | some img =>
      uploadTexturesLoop decode rest
        ⟨acc.modelTexturePaths ++ [p],
         acc.modelTextures ++ [⟨p, imageHasTransparency img.pixels⟩]⟩

/-- EnsureModelTexturesUploaded (NativeDx12Renderer.cpp:872-1011): guard on
model validity and texture-coordinate coverage, skip when the cached path list
already matches, else wait for GPU idle (not modelled), release the old cache
and run the upload loop over the model's texture paths. -/
def ensureModelTexturesUploaded (decode : String → Option DecodedImageData)
    (model : ModelData) (st : Dx12TextureCache) : Bool × Dx12TextureCache :=
  if modelIsValid model = false then (false, emptyDx12Cache)
  else if model.texturePaths.isEmpty ∨ model.texCoords.length ≠ model.positions.length then
    (false, emptyDx12Cache)
  else if st.modelTexturePaths = model.texturePaths ∧
      st.modelTextures.length = model.texturePaths.length then
    (true, st)
  else uploadTexturesLoop decode model.texturePaths emptyDx12Cache

/-- renderedAnyTexturedGeometry after the textured branch: geometry is drawn
only when the texture refresh succeeded and triangles were produced
(NativeDx12Renderer.cpp:1552-1719). -/
def renderedAnyTexturedGeometry (ensureOk trianglesProduced : Bool) : Bool :=
  ensureOk && trianglesProduced

/-- shouldDrawWireOverlay at NativeDx12Renderer.cpp:1721 (and
SdlRendererBase.cpp:418): the wire pass runs when the overlay toggle is on or
no textured geometry was rendered. -/
def shouldDrawWireOverlay (wireOverlayEnabled renderedAnyTextured : Bool) : Bool :=
  wireOverlayEnabled || !renderedAnyTextured

/-! ## Blank-frame fallback supervisor (Application::Run) -/

/-- The Application state read and written by the blank-output supervisor in
Application::Run (Application.cpp:389-546): the frame counter, the consecutive
near-clear counter, the one-shot fallback flag, whether the active renderer is
the software backend, and the native-DX12-ImGui flag. -/
structure AppState where
  frameCounter : Nat
  probableBlankFrameCount : Nat
  autoFallbackAttempted : Bool
  activeIsSoftware : Bool
  useNativeDx12ImGui : Bool
deriving DecidableEq, Repr

/-- Per-frame observations feeding the supervisor: whether ImGui produced
geometry, whether the pixel read-back succeeded, and whether the sampled pixel
is within ±3 per channel of the clear color (18, 20, 24). -/
structure FrameInput where
  hasUiGeometry : Bool
  sampleOk : Bool
  nearClearColor : Bool
deriving DecidableEq, Repr

/-- Whether this frame samples the background pixel: the supervisor guard at
Application.cpp:462-464 (hardware backend, not overridden, fallback not yet
attempted, UI geometry present) plus the frames-0..179 window. -/
def samplingActive (backendForced : Bool) (s : AppState) (inp : FrameInput) : Bool :=
  !s.useNativeDx12ImGui && !backendForced && !s.autoFallbackAttempted &&
    !s.activeIsSoftware && inp.hasUiGeometry && decide (s.frameCounter < 180)

/-- The counter update on a sampling frame (Application.cpp:472-481): when the
pixel read-back succeeds, increment on a near-clear sample and reset to 0
otherwise; when it fails the counter is left as-is. -/
def nextBlankFrameCount (s : AppState) (inp : FrameInput) : Nat :=
  if inp.sampleOk then
    (if inp.nearClearColor then s.probableBlankFrameCount + 1 else 0)
  else s.probableBlankFrameCount

/-- One iteration of the Application::Run supervisor (Application.cpp:462-546):
when sampling is active the counter is updated per `nextBlankFrameCount`; when
the updated counter reaches 45 the renderer is shut down and reinitialized onto
the software backend (modelled as succeeding), the one-shot flag is set and the
counter cleared.  Returns the next state and whether the fallback fired this
frame. -/
def supervisorStep (backendForced : Bool) (s : AppState) (inp : FrameInput) :
    AppState × Bool :=
  if samplingActive backendForced s inp then
    if 45 ≤ nextBlankFrameCount s inp then
      ({ frameCounter := s.frameCounter + 1
         probableBlankFrameCount := 0
         autoFallbackAttempted := true
         activeIsSoftware := true
         useNativeDx12ImGui := false }, true)
    else
      ({ s with frameCounter := s.frameCounter + 1
                probableBlankFrameCount := nextBlankFrameCount s inp }, false)
  else ({ s with frameCounter := s.frameCounter + 1 }, false)

/-- Running the supervisor over a sequence of frames, counting how many times
the automatic software fallback fired. -/
def runSupervisor (backendForced : Bool) (s : AppState) :
    List FrameInput → AppState × Nat
  | [] => (s, 0)
  | inp :: rest =>
    let r := supervisorStep backendForced s inp
    let r2 := runSupervisor backendForced r.1 rest
    (r2.1, (if r.2 then 1 else 0) + r2.2)

/-- Session start on a non-overridden hardware SDL backend. -/
def initialHardwareState : AppState :=
  { frameCounter := 0
    probableBlankFrameCount := 0
    autoFallbackAttempted := false
    activeIsSoftware := false
    useNativeDx12ImGui := false }

/-! ## Helper lemmas -/

theorem clampF_eq_self (q : ℚ) (h0 : 0 ≤ q) (h1 : q ≤ 1) : clampF q 0 1 = q := by
  unfold clampF
  split_ifs with ha hb
  · linarith
  · linarith
  · rfl

theorem clampF_lt_threshold (q : ℚ) :
    clampF q 0 1 < mkRat 999 1000 ↔ q < mkRat 999 1000 := by
  unfold clampF
  split_ifs with ha hb
  · constructor <;> intro _ <;> [linarith; norm_num]
  · constructor <;> intro h <;> [norm_num at h; linarith]
  · exact Iff.rfl

theorem allocateSrvN_fresh (n : Nat) :
    ∀ k : Nat, k + n ≤ kSrvDescriptorCount →
      allocateSrvN n ⟨k, []⟩ = ((List.range' k n).map some, ⟨k + n, []⟩) := by
  induction n with
  | zero => intro k _; simp [allocateSrvN]
  | succ m ih =>
    intro k h
    have hk : ¬kSrvDescriptorCount ≤ k := by
      unfold kSrvDescriptorCount at h ⊢; omega
    have hrec := ih (k + 1) (by omega)
    have hkm : k + 1 + m = k + (m + 1) := by omega
    simp only [allocateSrvN, allocateSrvDescriptor, if_neg hk, hrec,
      List.range'_succ, List.map_cons, hkm]

/-- Claim C3 counterexample: from the freshly initialized allocator, a sequence
of N = C = 64 allocations (allowed by the claim since N ≤ C) yields only 63
handles — the 64th allocation fails because slot 0 is reserved for the UI font
and the high-water mark starts at 1. -/
theorem c3_capacity_fails_at_64 :
    ((allocateSrvN 64 initSrvAllocator).1.filterMap id).length = 63 ∧
    (allocateSrvN 64 initSrvAllocator).1.getLast? = some none := by decide

/-- Claim C3 (amended): from a freshly initialized allocator of capacity C = 64
with one slot reserved for the UI font, every sequence of N ≤ C − 1 = 63
allocations with no intervening frees yields N distinct slot handles (indices
1..N in order), and an allocation fails exactly when the free list is empty and
the high-water mark has reached C. -/
theorem c3_allocator_distinct_amended (n : Nat) (h : n ≤ kSrvDescriptorCount - 1) :
    ((allocateSrvN n initSrvAllocator).1 = (List.range' 1 n).map some ∧
     ((allocateSrvN n initSrvAllocator).1.filterMap id).Nodup ∧
     ((allocateSrvN n initSrvAllocator).1.filterMap id).length = n) ∧
    (∀ s : SrvAllocator,
        (allocateSrvDescriptor s).1 = none ↔
          s.srvFreeList = [] ∧ kSrvDescriptorCount ≤ s.srvNextFreeIndex) := by
  have hrun := allocateSrvN_fresh n 1 (by unfold kSrvDescriptorCount at h ⊢; omega)
  constructor
  · refine ⟨by rw [initSrvAllocator, hrun], ?_, ?_⟩
    · rw [initSrvAllocator, hrun]
      simp [List.filterMap_map, List.nodup_range']
    · rw [initSrvAllocator, hrun]
      simp [List.filterMap_map]
  · intro s
    rcases s with ⟨next, freeList⟩
    cases freeList with
    | nil =>
      by_cases hn : kSrvDescriptorCount ≤ next <;>
        simp [allocateSrvDescriptor, hn]
    | cons i rest => simp [allocateSrvDescriptor]

/-- Claim C3 amended witness at N = 63. -/
theorem c3_allocator_distinct_amended_witness :
    63 ≤ kSrvDescriptorCount - 1 ∧
    (((allocateSrvN 63 initSrvAllocator).1 = (List.range' 1 63).map some ∧
      ((allocateSrvN 63 initSrvAllocator).1.filterMap id).Nodup ∧
      ((allocateSrvN 63 initSrvAllocator).1.filterMap id).length = 63) ∧
     (∀ s : SrvAllocator,
        (allocateSrvDescriptor s).1 = none ↔
          s.srvFreeList = [] ∧ kSrvDescriptorCount ≤ s.srvNextFreeIndex)) :=
  ⟨by decide, c3_allocator_distinct_amended 63 (by decide)⟩

/-- Claim C4: for every allocator state, freeing an in-range slot handle and then
allocating returns that same handle (restoring the original state), and whenever
the free list is non-empty an allocation pops its most recently pushed element
and leaves the high-water mark untouched. -/
theorem c4_free_then_allocate :
    (∀ (s : SrvAllocator) (i : Nat), i < kSrvDescriptorCount →
        allocateSrvDescriptor (freeSrvDescriptor s i) = (some i, s)) ∧
    (∀ (s : SrvAllocator) (i : Nat) (rest : List Nat),
        s.srvFreeList = i :: rest →
        allocateSrvDescriptor s =
          (some i, { s with srvFreeList := rest })) := by
  constructor
  · intro s i h
    simp [freeSrvDescriptor, allocateSrvDescriptor, h]
  · intro s i rest h
    simp [allocateSrvDescriptor, h]

/-- Claim C4 witness: free slot 5 on the fresh allocator then allocate; pop the
head of a concrete non-empty free list. -/
theorem c4_free_then_allocate_witness :
    (5 < kSrvDescriptorCount ∧
      allocateSrvDescriptor (freeSrvDescriptor initSrvAllocator 5) =
        (some 5, initSrvAllocator)) ∧
    ((⟨7, [2, 3]⟩ : SrvAllocator).srvFreeList = 2 :: [3] ∧
      allocateSrvDescriptor ⟨7, [2, 3]⟩ = (some 2, ⟨7, [3]⟩)) :=
  ⟨⟨by decide, c4_free_then_allocate.1 initSrvAllocator 5 (by decide)⟩,
   ⟨rfl, c4_free_then_allocate.2 ⟨7, [2, 3]⟩ 2 [3] rfl⟩⟩

/-- Claim C10: parsing a backend name accepts exactly the three known names
case-insensitively (lowercasing the input must give "dx12", "vulkan" or
"software") and returns none for every other string, including the empty
string. -/
theorem c10_parse_backend (value : String) :
    (∀ b : RendererBackend,
        parseRendererBackend value = some b ↔
          value.map asciiToLower = rendererBackendName b) ∧
    (parseRendererBackend value = none ↔
        (value.map asciiToLower ≠ "dx12" ∧ value.map asciiToLower ≠ "vulkan" ∧
         value.map asciiToLower ≠ "software")) := by
  unfold parseRendererBackend
  by_cases h0 : value.map asciiToLower = ""
  · rw [h0]
    constructor
    · intro b
      cases b <;> simp [rendererBackendName]
    · simp only [if_pos rfl]
      refine ⟨fun _ => ⟨by decide, by decide, by decide⟩, fun _ => rfl⟩
  · by_cases h1 : value.map asciiToLower = "dx12"
    · rw [h1]
      constructor
      · intro b
        cases b <;> simp [rendererBackendName]
      · simp only [if_neg (by decide : ¬("dx12" : String) = ""), if_pos rfl]
        constructor
        · intro h; cases h
        · intro ⟨ha, _, _⟩; exact absurd rfl ha
    · by_cases h2 : value.map asciiToLower = "vulkan"
      · rw [h2]
        constructor
        · intro b
          cases b <;> simp [rendererBackendName]
        · simp only [if_neg (by decide : ¬("vulkan" : String) = ""),
            if_neg (by decide : ¬("vulkan" : String) = "dx12"), if_pos rfl]
          constructor
          · intro h; cases h
          · intro ⟨_, hb, _⟩; exact absurd rfl hb
      · by_cases h3 : value.map asciiToLower = "software"
        · rw [h3]
          constructor
          · intro b
            cases b <;> simp [rendererBackendName]
          · simp only [if_neg (by decide : ¬("software" : String) = ""),
              if_neg (by decide : ¬("software" : String) = "dx12"),
              if_neg (by decide : ¬("software" : String) = "vulkan"), if_pos rfl]
            constructor
            · intro h; cases h
            · intro ⟨_, _, hc⟩; exact absurd rfl hc
        · rw [if_neg h0, if_neg h1, if_neg h2, if_neg h3]
          constructor
          · intro b
            cases b <;> simp [rendererBackendName] <;> assumption
          · exact ⟨fun _ => ⟨h1, h2, h3⟩, fun _ => rfl⟩

/-- Claim C1 counterexample: two opaque primitives with depth keys 1 and 2 sort
to depths [2, 1] under the comparator (which orders ties on the transparency
flag by descending depth), so the opaque prefix is not non-decreasing in depth
key as the claim states. -/
theorem c1_opaque_ascending_fails :
    (sortTexturedTriangles
        [⟨0, 1, false⟩, ⟨0, 2, false⟩]).map TexturedTriangle.depth = [2, 1] ∧
    ¬ List.Sorted (fun p q : ℚ => p ≤ q)
        ((sortTexturedTriangles
            [⟨0, 1, false⟩, ⟨0, 2, false⟩]).map TexturedTriangle.depth) := by
  constructor
  · decide
  · decide

/-- Claim C1 (amended): after the transparency sort every opaque primitive
precedes every transparent primitive, and within the opaque prefix as well as
within the transparent suffix the depth keys are non-increasing (both groups
are drawn back-to-front; the SDL comparator applies painter's ordering to the
opaque group too).  The output is a permutation of the input, and the sort
relation is exactly this ordering. -/
theorem c1_transparency_sort_amended (l : List TexturedTriangle) :
    List.Sorted texturedTriangleLe (sortTexturedTriangles l) ∧
    (sortTexturedTriangles l).Perm l ∧
    (∀ a b : TexturedTriangle,
        texturedTriangleLe a b ↔
          ((a.isTransparent = false ∧ b.isTransparent = true) ∨
           (a.isTransparent = b.isTransparent ∧ b.depth ≤ a.depth))) := by
  refine ⟨List.sorted_insertionSort texturedTriangleLe l,
    List.perm_insertionSort texturedTriangleLe l, ?_⟩
  intro a b
  unfold texturedTriangleLe texturedTriangleLess
  cases ha : a.isTransparent <;> cases hb : b.isTransparent <;> simp_all

/-- Claim C7 counterexample: a submesh with no transparency sources of its own
(flags false, no opacity texture, opacity 1) whose resolved texture carries the
transparency hint: the claim's formula sets the flag, but the SDL projector's
flag has no texture-hint disjunct and stays false. -/
theorem c7_hint_term_fails :
    triangleIsTransparentSdl ⟨0, 3, 0, -1, -1, -1, -1, 1, 0, false, false, false⟩ = false ∧
    claimTriangleFlagC7 ⟨0, 3, 0, -1, -1, -1, -1, 1, 0, false, false, false⟩ true = true ∧
    triangleIsTransparentSdl ⟨0, 3, 0, -1, -1, -1, -1, 1, 0, false, false, false⟩ ≠
      claimTriangleFlagC7 ⟨0, 3, 0, -1, -1, -1, -1, 1, 0, false, false, false⟩ true := by
  refine ⟨by decide, by decide, by decide⟩

/-- Claim C7 (amended): every textured render primitive built by the SDL
geometry projector carries a transparency flag equal to the disjunction
submesh.isTransparent OR alphaCutoutEnabled OR the submesh references an
opacity texture OR the submesh opacity is below 0.999 — with no contribution
from any resolved-texture transparency hint. -/
theorem c7_transparency_flag_amended (s : ModelSubmesh) :
    triangleIsTransparentSdl s =
      (s.isTransparent || s.alphaCutoutEnabled ||
        decide (0 ≤ s.opacityTextureIndex) || decide (s.opacity < mkRat 999 1000)) := by
  unfold triangleIsTransparentSdl submeshIsTransparentSdl submeshUsesOpacityTexture
  have hq : decide (clampF s.opacity 0 1 < mkRat 999 1000) =
      decide (s.opacity < mkRat 999 1000) := by
    rw [decide_eq_decide]
    exact clampF_lt_threshold s.opacity
  rw [hq]
  cases s.isTransparent <;> cases s.alphaCutoutEnabled <;>
    cases hd : decide (0 ≤ s.opacityTextureIndex) <;>
    cases he : decide (s.opacity < mkRat 999 1000) <;> rfl

/-- Claim C9: with a recognized explicit override the attempt order contains
only that backend, and if that single backend's initialization fails, selection
fails with that backend's captured error and no other backend is attempted. -/
theorem c9_override_failure (initOk : RendererBackend → Bool)
    (initErr : RendererBackend → String) (b : RendererBackend)
    (requestedName : String) :
    buildRendererAttemptOrder (some b) = [b] ∧
    (initOk b = false →
      (createRenderer initOk initErr (some b) requestedName).success = false ∧
      (createRenderer initOk initErr (some b) requestedName).attempted = [b] ∧
      (createRenderer initOk initErr (some b) requestedName).statusMessage =
        "Requested renderer backend failed. ENGINE_RENDERER=" ++ requestedName ++
          ", error: " ++ initErr b) := by
  refine ⟨rfl, ?_⟩
  intro hfail
  have hcap : capturedError (storeAttemptError ⟨"", "", ""⟩ b (initErr b)) b =
      initErr b := by
    cases b <;> rfl
  simp [createRenderer, buildRendererAttemptOrder, tryBackendsInOrder, hfail, hcap]

/-- Claim C9 witness: a Vulkan override whose initialization always fails. -/
theorem c9_override_failure_witness :
    (fun _ : RendererBackend => false) RendererBackend.Vulkan = false ∧
    ((createRenderer (fun _ => false) (fun _ => "no compatible Vulkan device")
        (some RendererBackend.Vulkan) "vulkan").success = false ∧
     (createRenderer (fun _ => false) (fun _ => "no compatible Vulkan device")
        (some RendererBackend.Vulkan) "vulkan").attempted = [RendererBackend.Vulkan] ∧
     (createRenderer (fun _ => false) (fun _ => "no compatible Vulkan device")
        (some RendererBackend.Vulkan) "vulkan").statusMessage =
       "Requested renderer backend failed. ENGINE_RENDERER=" ++ "vulkan" ++
         ", error: " ++ (fun _ : RendererBackend => "no compatible Vulkan device")
           RendererBackend.Vulkan) :=
  ⟨rfl,
   (c9_override_failure (fun _ => false) (fun _ => "no compatible Vulkan device")
      RendererBackend.Vulkan "vulkan").2 rfl⟩

theorem supervisorStep_fired_sets_flag (forced : Bool) (s : AppState)
    (inp : FrameInput) (h : (supervisorStep forced s inp).2 = true) :
    (supervisorStep forced s inp).1.autoFallbackAttempted = true := by
  unfold supervisorStep at h ⊢
  by_cases h1 : samplingActive forced s inp = true
  · rw [if_pos h1] at h ⊢
    by_cases h2 : 45 ≤ nextBlankFrameCount s inp
    · rw [if_pos h2]
    · rw [if_neg h2] at h
      simp at h
  · rw [if_neg h1] at h
    simp at h

theorem supervisorStep_keeps_flag (forced : Bool) (s : AppState)
    (inp : FrameInput) (h : (supervisorStep forced s inp).2 = false) :
    (supervisorStep forced s inp).1.autoFallbackAttempted =
      s.autoFallbackAttempted := by
  unfold supervisorStep at h ⊢
  by_cases h1 : samplingActive forced s inp = true
  · rw [if_pos h1] at h ⊢
    by_cases h2 : 45 ≤ nextBlankFrameCount s inp
    · rw [if_pos h2] at h
      simp at h
    · rw [if_neg h2]
  · rw [if_neg h1]

theorem supervisorStep_attempted_no_fire (forced : Bool) (s : AppState)
    (inp : FrameInput) (h : s.autoFallbackAttempted = true) :
    supervisorStep forced s inp =
      ({ s with frameCounter := s.frameCounter + 1 }, false) := by
  unfold supervisorStep samplingActive
  simp [h]

theorem runSupervisor_attempted (forced : Bool) (inputs : List FrameInput) :
    ∀ s : AppState, s.autoFallbackAttempted = true →
      (runSupervisor forced s inputs).2 = 0 := by
  induction inputs with
  | nil => intro s _; rfl
  | cons inp rest ih =>
    intro s h
    have hstep := supervisorStep_attempted_no_fire forced s inp h
    simp only [runSupervisor, hstep]
    have hrest := ih { s with frameCounter := s.frameCounter + 1 } h
    simpa using hrest

theorem runSupervisor_at_most_once (forced : Bool) (inputs : List FrameInput) :
    ∀ s : AppState, (runSupervisor forced s inputs).2 ≤ 1 := by
  induction inputs with
  | nil => intro s; simp [runSupervisor]
  | cons inp rest ih =>
    intro s
    simp only [runSupervisor]
    cases hfire : (supervisorStep forced s inp).2
    · simpa using ih (supervisorStep forced s inp).1
    · have hset := supervisorStep_fired_sets_flag forced s inp hfire
      have hrest := runSupervisor_attempted forced rest _ hset
      simp [hrest]

theorem runSupervisor_append (forced : Bool) (l1 l2 : List FrameInput) :
    ∀ s : AppState,
      runSupervisor forced s (l1 ++ l2) =
        ((runSupervisor forced (runSupervisor forced s l1).1 l2).1,
         (runSupervisor forced s l1).2 +
           (runSupervisor forced (runSupervisor forced s l1).1 l2).2) := by
  induction l1 with
  | nil => intro s; simp [runSupervisor]
  | cons inp rest ih =>
    intro s
    simp only [List.cons_append, runSupervisor, List.append_eq]
    rw [ih]
    simp [Nat.add_assoc]

/-- Claim C2 counterexample: a monitored hardware frame (frame 10 of a session,
counter at 3) on which the UI produced no geometry: no sample is taken and the
code leaves the counter at 3, whereas the claim's "resets to 0 otherwise"
requires 0. -/
theorem c2_counter_reset_fails :
    (supervisorStep false ⟨10, 3, false, false, false⟩
        ⟨false, true, true⟩).1.probableBlankFrameCount = 3 ∧
    ¬ (supervisorStep false ⟨10, 3, false, false, false⟩
        ⟨false, true, true⟩).1.probableBlankFrameCount = 0 := by
  refine ⟨rfl, by decide⟩

set_option maxRecDepth 20000 in
/-- Claim C2 (amended): while sampling is active (hardware backend, not
overridden, fallback not yet attempted, UI geometry present, frame < 180) and
the pixel read-back succeeds, the counter increments on a near-clear sample
(dropping to 0 when the increment reaches the threshold 45 and fires the
fallback) and resets to 0 on a non-near-clear sample; on frames where no sample
is taken (sampling inactive, or read-back failure with the counter below the
threshold) the counter is left unchanged.  Over any input trace at most one
automatic software fallback ever fires, and 45 consecutive near-clear sampled
frames from a fresh hardware session fire it exactly once no matter what
follows. -/
theorem c2_blank_fallback_amended :
    (∀ (forced : Bool) (s : AppState) (inp : FrameInput),
        samplingActive forced s inp = true → inp.sampleOk = true →
        (supervisorStep forced s inp).1.probableBlankFrameCount =
          (if inp.nearClearColor then
            (if 45 ≤ s.probableBlankFrameCount + 1 then 0
             else s.probableBlankFrameCount + 1)
           else 0)) ∧
    (∀ (forced : Bool) (s : AppState) (inp : FrameInput),
        samplingActive forced s inp = false →
        (supervisorStep forced s inp).1.probableBlankFrameCount =
          s.probableBlankFrameCount) ∧
    (∀ (forced : Bool) (s : AppState) (inp : FrameInput),
        inp.sampleOk = false → s.probableBlankFrameCount < 45 →
        (supervisorStep forced s inp).1.probableBlankFrameCount =
          s.probableBlankFrameCount) ∧
    (∀ (forced : Bool) (s : AppState) (inputs : List FrameInput),
        (runSupervisor forced s inputs).2 ≤ 1) ∧
    (∀ rest : List FrameInput,
        (runSupervisor false initialHardwareState
            (List.replicate 45 ⟨true, true, true⟩ ++ rest)).2 = 1) := by
  refine ⟨?_, ?_, ?_, ?_, ?_⟩
  · intro forced s inp hact hok
    have hn : nextBlankFrameCount s inp =
        (if inp.nearClearColor then s.probableBlankFrameCount + 1 else 0) := by
      unfold nextBlankFrameCount
      simp [hok]
    unfold supervisorStep
    rw [if_pos hact, hn]
    by_cases hc : inp.nearClearColor = true
    · rw [hc]
      simp only [if_true]
      by_cases h45 : 45 ≤ s.probableBlankFrameCount + 1
      · rw [if_pos h45, if_pos h45]
      · rw [if_neg h45, if_neg h45]
    · have hc2 : inp.nearClearColor = false := by
        cases hv : inp.nearClearColor
        · rfl
        · exact absurd hv hc
      rw [hc2]
      simp
  · intro forced s inp hact
    unfold supervisorStep
    rw [if_neg (by simp [hact])]
  · intro forced s inp hok hlt
    have hn : nextBlankFrameCount s inp = s.probableBlankFrameCount := by
      unfold nextBlankFrameCount
      simp [hok]
    unfold supervisorStep
    by_cases hact : samplingActive forced s inp = true
    · rw [if_pos hact, hn, if_neg (by omega)]
    · rw [if_neg hact]
  · intro forced s inputs
    exact runSupervisor_at_most_once forced inputs s
  · intro rest
    have hpre : runSupervisor false initialHardwareState
        (List.replicate 45 ⟨true, true, true⟩) =
          (⟨45, 0, true, true, false⟩, 1) := by decide
    rw [runSupervisor_append, hpre]
    have hrest := runSupervisor_attempted false rest
      (⟨45, 0, true, true, false⟩ : AppState) rfl
    simp [hrest]

/-- Claim C2 amended witness: a near-clear sampled frame from the fresh state,
a non-monitored frame, a failed read-back frame, the at-most-once bound on a
short trace, and the 45-frame scenario followed by one extra frame. -/
theorem c2_blank_fallback_amended_witness :
    (samplingActive false initialHardwareState ⟨true, true, true⟩ = true ∧
     (⟨true, true, true⟩ : FrameInput).sampleOk = true ∧
     (supervisorStep false initialHardwareState
         ⟨true, true, true⟩).1.probableBlankFrameCount =
       (if (⟨true, true, true⟩ : FrameInput).nearClearColor then
          (if 45 ≤ initialHardwareState.probableBlankFrameCount + 1 then 0
           else initialHardwareState.probableBlankFrameCount + 1)
        else 0)) ∧
    (samplingActive true initialHardwareState ⟨true, true, true⟩ = false ∧
     (supervisorStep true initialHardwareState
         ⟨true, true, true⟩).1.probableBlankFrameCount =
       initialHardwareState.probableBlankFrameCount) ∧
    ((⟨true, false, true⟩ : FrameInput).sampleOk = false ∧
     initialHardwareState.probableBlankFrameCount < 45 ∧
     (supervisorStep false initialHardwareState
         ⟨true, false, true⟩).1.probableBlankFrameCount =
       initialHardwareState.probableBlankFrameCount) ∧
    (runSupervisor false initialHardwareState [⟨true, true, true⟩]).2 ≤ 1 ∧
    (runSupervisor false initialHardwareState
        (List.replicate 45 ⟨true, true, true⟩ ++ [⟨true, true, true⟩])).2 = 1 :=
  ⟨⟨rfl, rfl, c2_blank_fallback_amended.1 false initialHardwareState
      ⟨true, true, true⟩ rfl rfl⟩,
   ⟨rfl, c2_blank_fallback_amended.2.1 true initialHardwareState
      ⟨true, true, true⟩ rfl⟩,
   ⟨rfl, by decide, c2_blank_fallback_amended.2.2.1 false initialHardwareState
      ⟨true, false, true⟩ rfl (by decide)⟩,
   c2_blank_fallback_amended.2.2.2.1 false initialHardwareState [⟨true, true, true⟩],
   c2_blank_fallback_amended.2.2.2.2 [⟨true, true, true⟩]⟩

theorem keysEqual_iff (k1 k2 : ComposedTextureKey) :
    keysEqual k1 k2 = true ↔ k1 = k2 := by
  cases k1
  cases k2
  simp [keysEqual, ComposedTextureKey.mk.injEq, and_assoc]

theorem findComposedEntry_append_hit (l : List ComposedTextureEntry)
    (k : ComposedTextureKey) (t : Nat)
    (h : findComposedEntry l k = none) :
    findComposedEntry (l ++ [⟨k, t⟩]) k = some t := by
  induction l with
  | nil =>
    simp only [List.nil_append, findComposedEntry]
    rw [if_pos ((keysEqual_iff k k).mpr rfl)]
  | cons e rest ih =>
    simp only [List.cons_append, findComposedEntry] at h ⊢
    by_cases he : keysEqual e.key k = true
    · rw [if_pos he] at h
      cases h
    · rw [if_neg he] at h ⊢
      exact ih h

theorem findComposedEntry_append_miss (l : List ComposedTextureEntry)
    (k k2 : ComposedTextureKey) (t : Nat)
    (h : findComposedEntry l k2 = none) (hne : k ≠ k2) :
    findComposedEntry (l ++ [⟨k, t⟩]) k2 = none := by
  induction l with
  | nil =>
    simp only [List.nil_append, findComposedEntry]
    rw [if_neg (fun hk => hne ((keysEqual_iff k k2).mp hk))]
  | cons e rest ih =>
    simp only [List.cons_append, findComposedEntry] at h ⊢
    by_cases he : keysEqual e.key k2 = true
    · rw [if_pos he] at h
      cases h
    · rw [if_neg he] at h ⊢
      exact ih h

theorem resolveSubmeshTexture_six_eq (st : SdlTextureCache) (s1 s2 : ModelSubmesh)
    (h : submeshSixFields s1 = submeshSixFields s2) :
    resolveSubmeshTexture st s1 = resolveSubmeshTexture st s2 := by
  rcases s1 with ⟨i1, c1, ti1, oi1, ni1, ei1, si1, op1, ac1, it1, ae1, ot1⟩
  rcases s2 with ⟨i2, c2, ti2, oi2, ni2, ei2, si2, op2, ac2, it2, ae2, ot2⟩
  simp only [submeshSixFields, Prod.mk.injEq] at h
  obtain ⟨h1, h2, h3, h4, h5, h6⟩ := h
  subst h1
  subst h2
  subst h3
  subst h4
  subst h5
  subst h6
  rfl

theorem resolveSubmeshTexture_synthesize (st : SdlTextureCache) (s : ModelSubmesh)
    (hn : needsComposedTexture s = true)
    (hlen : s.textureIndex.toNat < st.modelTextures.length)
    (hcc : canCreateComposedTexture st s = true)
    (hmiss : findComposedEntry st.composedTextures (composedKeyFor s) = none) :
    resolveSubmeshTexture st s =
      (some st.nextTextureHandle,
       { st with
          composedTextures :=
            st.composedTextures ++ [⟨composedKeyFor s, st.nextTextureHandle⟩]
          nextTextureHandle := st.nextTextureHandle + 1 }) := by
  have hpos : 0 ≤ s.textureIndex := by
    have h := hcc
    unfold canCreateComposedTexture at h
    simp only [Bool.and_eq_true, decide_eq_true_eq] at h
    exact h.1.1
  have hguard : ¬(s.textureIndex < 0 ∨
      st.modelTextures.length ≤ s.textureIndex.toNat) := by
    push_neg
    exact ⟨hpos, hlen⟩
  unfold resolveSubmeshTexture
  rw [if_neg hguard, if_neg (by simp [hn]), hmiss, if_pos hcc]

theorem resolveSubmeshTexture_cache_hit (st : SdlTextureCache) (s : ModelSubmesh)
    (t : Nat)
    (hn : needsComposedTexture s = true)
    (hpos : 0 ≤ s.textureIndex)
    (hlen : s.textureIndex.toNat < st.modelTextures.length)
    (hfind : findComposedEntry st.composedTextures (composedKeyFor s) = some t) :
    resolveSubmeshTexture st s = (some t, st) := by
  have hguard : ¬(s.textureIndex < 0 ∨
      st.modelTextures.length ≤ s.textureIndex.toNat) := by
    push_neg
    exact ⟨hpos, hlen⟩
  unfold resolveSubmeshTexture
  rw [if_neg hguard, if_neg (by simp [hn]), hfind]

/-- Claim C5: resolving a submesh that needs composition, whose key misses the
cache and whose color surface is available, synthesizes and caches a fresh
handle; a second submesh identical in the six key fields then resolves to that
same cached handle with the cache unchanged, while a second submesh differing
in any of the six fields (scalars within the documented [0,1] invariant, with
its own surface availability and cache miss) synthesizes a different, new
handle. -/
theorem c5_composed_cache_key (st : SdlTextureCache) (s1 s2 : ModelSubmesh)
    (hn1 : needsComposedTexture s1 = true)
    (hlen1 : s1.textureIndex.toNat < st.modelTextures.length)
    (hcc1 : canCreateComposedTexture st s1 = true)
    (hmiss1 : findComposedEntry st.composedTextures (composedKeyFor s1) = none) :
    (resolveSubmeshTexture st s1).1 = some st.nextTextureHandle ∧
    (submeshSixFields s1 = submeshSixFields s2 →
      resolveSubmeshTexture (resolveSubmeshTexture st s1).2 s2 =
        ((resolveSubmeshTexture st s1).1, (resolveSubmeshTexture st s1).2)) ∧
    (submeshSixFields s1 ≠ submeshSixFields s2 →
      needsComposedTexture s2 = true →
      s2.textureIndex.toNat < st.modelTextures.length →
      canCreateComposedTexture st s2 = true →
      findComposedEntry st.composedTextures (composedKeyFor s2) = none →
      0 ≤ s1.opacity → s1.opacity ≤ 1 → 0 ≤ s1.alphaCutoff → s1.alphaCutoff ≤ 1 →
      0 ≤ s2.opacity → s2.opacity ≤ 1 → 0 ≤ s2.alphaCutoff → s2.alphaCutoff ≤ 1 →
      (resolveSubmeshTexture (resolveSubmeshTexture st s1).2 s2).1 =
          some (st.nextTextureHandle + 1) ∧
      (resolveSubmeshTexture (resolveSubmeshTexture st s1).2 s2).1 ≠
          (resolveSubmeshTexture st s1).1) := by
  have hpos1 : 0 ≤ s1.textureIndex := by
    have h := hcc1
    unfold canCreateComposedTexture at h
    simp only [Bool.and_eq_true, decide_eq_true_eq] at h
    exact h.1.1
  have hres1 := resolveSubmeshTexture_synthesize st s1 hn1 hlen1 hcc1 hmiss1
  refine ⟨by rw [hres1], ?_, ?_⟩
  · intro hsix
    rw [hres1]
    rw [← resolveSubmeshTexture_six_eq _ s1 s2 hsix]
    exact resolveSubmeshTexture_cache_hit _ s1 st.nextTextureHandle hn1 hpos1
      hlen1 (findComposedEntry_append_hit st.composedTextures _ _ hmiss1)
  · intro hsixne hn2 hlen2 hcc2 hmiss2 ho1a ho1b hc1a hc1b ho2a ho2b hc2a hc2b
    have hkne : composedKeyFor s1 ≠ composedKeyFor s2 := by
      intro hk
      apply hsixne
      unfold composedKeyFor at hk
      rw [ComposedTextureKey.mk.injEq] at hk
      obtain ⟨e1, e2, e3, e4, e5, e6⟩ := hk
      rw [clampF_eq_self _ ho1a ho1b, clampF_eq_self _ ho2a ho2b] at e3
      rw [clampF_eq_self _ hc1a hc1b, clampF_eq_self _ hc2a hc2b] at e4
      unfold submeshSixFields
      rw [e1, e2, e3, e4, e5, e6]
    have hres2 := resolveSubmeshTexture_synthesize
      (resolveSubmeshTexture st s1).2 s2 hn2
      (by rw [hres1]; exact hlen2)
      (by rw [hres1]; exact hcc2)
      (by
        rw [hres1]
        exact findComposedEntry_append_miss st.composedTextures _ _ _ hmiss2 hkne)
    rw [hres2, hres1]
    exact ⟨rfl, by simp⟩

/-- Claim C5 witness: an empty cache with one valid surface; the first submesh
enables alpha cutout, the second also inverts the opacity sample. -/
theorem c5_composed_cache_key_witness :
    (needsComposedTexture ⟨0, 3, 0, -1, -1, -1, -1, 1, 1/2, false, true, false⟩ = true ∧
     (⟨0, 3, 0, -1, -1, -1, -1, 1, 1/2, false, true, false⟩ :
        ModelSubmesh).textureIndex.toNat <
       (⟨[some 100], [true], [], 7⟩ : SdlTextureCache).modelTextures.length ∧
     canCreateComposedTexture ⟨[some 100], [true], [], 7⟩
       ⟨0, 3, 0, -1, -1, -1, -1, 1, 1/2, false, true, false⟩ = true ∧
     findComposedEntry
       (⟨[some 100], [true], [], 7⟩ : SdlTextureCache).composedTextures
       (composedKeyFor ⟨0, 3, 0, -1, -1, -1, -1, 1, 1/2, false, true, false⟩) = none) ∧
    ((resolveSubmeshTexture ⟨[some 100], [true], [], 7⟩
        ⟨0, 3, 0, -1, -1, -1, -1, 1, 1/2, false, true, false⟩).1 = some 7 ∧
     (submeshSixFields ⟨0, 3, 0, -1, -1, -1, -1, 1, 1/2, false, true, false⟩ =
        submeshSixFields ⟨0, 3, 0, -1, -1, -1, -1, 1, 1/2, false, true, true⟩ →
      resolveSubmeshTexture
          (resolveSubmeshTexture ⟨[some 100], [true], [], 7⟩
            ⟨0, 3, 0, -1, -1, -1, -1, 1, 1/2, false, true, false⟩).2
          ⟨0, 3, 0, -1, -1, -1, -1, 1, 1/2, false, true, true⟩ =
        ((resolveSubmeshTexture ⟨[some 100], [true], [], 7⟩
            ⟨0, 3, 0, -1, -1, -1, -1, 1, 1/2, false, true, false⟩).1,
         (resolveSubmeshTexture ⟨[some 100], [true], [], 7⟩
            ⟨0, 3, 0, -1, -1, -1, -1, 1, 1/2, false, true, false⟩).2)) ∧
     (submeshSixFields ⟨0, 3, 0, -1, -1, -1, -1, 1, 1/2, false, true, false⟩ ≠
        submeshSixFields ⟨0, 3, 0, -1, -1, -1, -1, 1, 1/2, false, true, true⟩ →
      needsComposedTexture ⟨0, 3, 0, -1, -1, -1, -1, 1, 1/2, false, true, true⟩ = true →
      (⟨0, 3, 0, -1, -1, -1, -1, 1, 1/2, false, true, true⟩ :
          ModelSubmesh).textureIndex.toNat <
        (⟨[some 100], [true], [], 7⟩ : SdlTextureCache).modelTextures.length →
      canCreateComposedTexture ⟨[some 100], [true], [], 7⟩
        ⟨0, 3, 0, -1, -1, -1, -1, 1, 1/2, false, true, true⟩ = true →
      findComposedEntry
        (⟨[some 100], [true], [], 7⟩ : SdlTextureCache).composedTextures
        (composedKeyFor ⟨0, 3, 0, -1, -1, -1, -1, 1, 1/2, false, true, true⟩) = none →
      0 ≤ (1 : ℚ) → (1 : ℚ) ≤ 1 → 0 ≤ (1/2 : ℚ) → (1/2 : ℚ) ≤ 1 →
      0 ≤ (1 : ℚ) → (1 : ℚ) ≤ 1 → 0 ≤ (1/2 : ℚ) → (1/2 : ℚ) ≤ 1 →
      (resolveSubmeshTexture
          (resolveSubmeshTexture ⟨[some 100], [true], [], 7⟩
            ⟨0, 3, 0, -1, -1, -1, -1, 1, 1/2, false, true, false⟩).2
          ⟨0, 3, 0, -1, -1, -1, -1, 1, 1/2, false, true, true⟩).1 = some (7 + 1) ∧
      (resolveSubmeshTexture
          (resolveSubmeshTexture ⟨[some 100], [true], [], 7⟩
            ⟨0, 3, 0, -1, -1, -1, -1, 1, 1/2, false, true, false⟩).2
          ⟨0, 3, 0, -1, -1, -1, -1, 1, 1/2, false, true, true⟩).1 ≠
        (resolveSubmeshTexture ⟨[some 100], [true], [], 7⟩
            ⟨0, 3, 0, -1, -1, -1, -1, 1, 1/2, false, true, false⟩).1)) :=
  ⟨⟨by decide, by decide, by decide, rfl⟩,
   c5_composed_cache_key ⟨[some 100], [true], [], 7⟩
     ⟨0, 3, 0, -1, -1, -1, -1, 1, 1/2, false, true, false⟩
     ⟨0, 3, 0, -1, -1, -1, -1, 1, 1/2, false, true, true⟩
     (by decide) (by decide) (by decide) rfl⟩

theorem sampleNearest_in_range (os : SdlSurface) (ox oy : Nat)
    (hw : 0 < os.w) (hh : 0 < os.h) (hox : ox < os.w) (hoy : oy < os.h) :
    sampleSurfaceChannelNearest (some os) (ox : Int) (oy : Int) 0 = os.pix ox oy 0 := by
  have hguard : ¬(os.w = 0 ∨ os.h = 0 ∨ (0 : Int) < 0 ∨ (3 : Int) < 0) := by
    push_neg
    exact ⟨by omega, by omega, le_refl 0, by norm_num⟩
  simp only [sampleSurfaceChannelNearest, clampI]
  rw [if_neg hguard, if_neg (by omega : ¬((ox : Int) < 0)),
    if_neg (by omega : ¬((os.w : Int) - 1 < (ox : Int))),
    if_neg (by omega : ¬((oy : Int) < 0)),
    if_neg (by omega : ¬((os.h : Int) - 1 < (oy : Int)))]
  simp

/-- Claim C6: on a cache miss each composed output pixel keeps the color
image's RGB channels and carries alpha equal to the color pixel's own alpha
times the submesh opacity times the (optionally inverted) opacity sample taken
at the nearest corresponding opacity-image coordinate, clamped to [0,1] and
zeroed below the cutoff when cutout is enabled — quantized with +0.5 rounding.
Hypotheses: surfaces are non-degenerate, the pixel lies inside the color image,
the material scalars respect the documented [0,1] invariant, and the sampled
opacity byte is valid (≤ 255). -/
theorem c6_composed_pixel_formula (submesh : ModelSubmesh)
    (colorSurface opacitySurface : SdlSurface) (x y : Nat)
    (hcw : 0 < colorSurface.w) (hch : 0 < colorSurface.h)
    (how : 0 < opacitySurface.w) (hoh : 0 < opacitySurface.h)
    (hx : x < colorSurface.w) (hy : y < colorSurface.h)
    (hop0 : 0 ≤ submesh.opacity) (hop1 : submesh.opacity ≤ 1)
    (hco0 : 0 ≤ submesh.alphaCutoff) (hco1 : submesh.alphaCutoff ≤ 1)
    (hsample : opacitySurface.pix (x * opacitySurface.w / colorSurface.w)
        (y * opacitySurface.h / colorSurface.h) 0 ≤ 255) :
    composedPixel submesh colorSurface (some opacitySurface) x y =
      { r := colorSurface.pix x y 0
        g := colorSurface.pix x y 1
        b := colorSurface.pix x y 2
        a := ratToByte
            (specComposedAlphaC6 submesh colorSurface opacitySurface x y * 255 +
              1 / 2) } := by
  have hox : x * opacitySurface.w / colorSurface.w < opacitySurface.w :=
    Nat.div_lt_of_lt_mul (mul_lt_mul_of_pos_right hx how)
  have hoy : y * opacitySurface.h / colorSurface.h < opacitySurface.h :=
    Nat.div_lt_of_lt_mul (mul_lt_mul_of_pos_right hy hoh)
  have hs0 : (0 : ℚ) ≤
      (opacitySurface.pix (x * opacitySurface.w / colorSurface.w)
        (y * opacitySurface.h / colorSurface.h) 0 : ℚ) / 255 := by
    positivity
  have hs1 : (opacitySurface.pix (x * opacitySurface.w / colorSurface.w)
      (y * opacitySurface.h / colorSurface.h) 0 : ℚ) / 255 ≤ 1 := by
    rw [div_le_one (by norm_num)]
    exact_mod_cast hsample
  unfold composedPixel specComposedAlphaC6
  simp only [Nat.max_eq_left hcw, Nat.max_eq_left hch,
    sampleNearest_in_range opacitySurface _ _ how hoh hox hoy,
    clampF_eq_self submesh.opacity hop0 hop1,
    clampF_eq_self submesh.alphaCutoff hco0 hco1]
  by_cases hinv : submesh.opacityTextureInverted = true
  · rw [hinv]
    simp only [if_true]
    rw [clampF_eq_self
      (1 - (opacitySurface.pix (x * opacitySurface.w / colorSurface.w)
        (y * opacitySurface.h / colorSurface.h) 0 : ℚ) / 255)
      (by linarith) (by linarith)]
  · have hinv2 : submesh.opacityTextureInverted = false := by
      cases hv : submesh.opacityTextureInverted
      · rfl
      · exact absurd hv hinv
    rw [hinv2]
    simp only [Bool.false_eq_true, if_false]
    rw [clampF_eq_self
      ((opacitySurface.pix (x * opacitySurface.w / colorSurface.w)
        (y * opacitySurface.h / colorSurface.h) 0 : ℚ) / 255) hs0 hs1]

/-- Claim C6 witness: a 2x2 color image composed with a 1x1 opacity image at
pixel (0,0), half opacity, cutout enabled with cutoff one half. -/
theorem c6_composed_pixel_formula_witness :
    (0 < (⟨2, 2, fun _ _ c => if c = 3 then 200 else 37⟩ : SdlSurface).w ∧
     0 < (⟨2, 2, fun _ _ c => if c = 3 then 200 else 37⟩ : SdlSurface).h ∧
     0 < (⟨1, 1, fun _ _ _ => 100⟩ : SdlSurface).w ∧
     0 < (⟨1, 1, fun _ _ _ => 100⟩ : SdlSurface).h ∧
     0 < (⟨2, 2, fun _ _ c => if c = 3 then 200 else 37⟩ : SdlSurface).w ∧
     0 < (⟨2, 2, fun _ _ c => if c = 3 then 200 else 37⟩ : SdlSurface).h ∧
     0 ≤ (⟨0, 3, 0, 1, -1, -1, -1, 1/2, 1/2, false, true, false⟩ :
        ModelSubmesh).opacity ∧
     (⟨0, 3, 0, 1, -1, -1, -1, 1/2, 1/2, false, true, false⟩ :
        ModelSubmesh).opacity ≤ 1 ∧
     0 ≤ (⟨0, 3, 0, 1, -1, -1, -1, 1/2, 1/2, false, true, false⟩ :
        ModelSubmesh).alphaCutoff ∧
     (⟨0, 3, 0, 1, -1, -1, -1, 1/2, 1/2, false, true, false⟩ :
        ModelSubmesh).alphaCutoff ≤ 1 ∧
     (⟨1, 1, fun _ _ _ => 100⟩ : SdlSurface).pix 0 0 0 ≤ 255) ∧
    composedPixel ⟨0, 3, 0, 1, -1, -1, -1, 1/2, 1/2, false, true, false⟩
        ⟨2, 2, fun _ _ c => if c = 3 then 200 else 37⟩
        (some ⟨1, 1, fun _ _ _ => 100⟩) 0 0 =
      { r := (⟨2, 2, fun _ _ c => if c = 3 then 200 else 37⟩ : SdlSurface).pix 0 0 0
        g := (⟨2, 2, fun _ _ c => if c = 3 then 200 else 37⟩ : SdlSurface).pix 0 0 1
        b := (⟨2, 2, fun _ _ c => if c = 3 then 200 else 37⟩ : SdlSurface).pix 0 0 2
        a := ratToByte
            (specComposedAlphaC6 ⟨0, 3, 0, 1, -1, -1, -1, 1/2, 1/2, false, true, false⟩
                ⟨2, 2, fun _ _ c => if c = 3 then 200 else 37⟩
                ⟨1, 1, fun _ _ _ => 100⟩ 0 0 * 255 + 1 / 2) } :=
  ⟨⟨by norm_num, by norm_num, by norm_num, by norm_num, by norm_num, by norm_num,
    by norm_num, by norm_num, by norm_num, by norm_num, by norm_num⟩,
   c6_composed_pixel_formula ⟨0, 3, 0, 1, -1, -1, -1, 1/2, 1/2, false, true, false⟩
     ⟨2, 2, fun _ _ c => if c = 3 then 200 else 37⟩ ⟨1, 1, fun _ _ _ => 100⟩ 0 0
     (by norm_num) (by norm_num) (by norm_num) (by norm_num) (by norm_num)
     (by norm_num) (by norm_num) (by norm_num) (by norm_num) (by norm_num)
     (by norm_num)⟩

theorem uploadTexturesLoop_fail (decode : String → Option DecodedImageData)
    (l : List String) :
    ∀ acc : Dx12TextureCache, (∃ p ∈ l, decode p = none) →
      (uploadTexturesLoop decode l acc).1 = false ∧
      (uploadTexturesLoop decode l acc).2.modelTexturePaths =
        acc.modelTexturePaths ++ l.takeWhile (fun p => (decode p).isSome) := by
  induction l with
  | nil =>
    intro acc hex
    simp at hex
  | cons p rest ih =>
    intro acc hex
    cases hd : decode p with
    | none =>
      refine ⟨by simp [uploadTexturesLoop, hd], ?_⟩
      simp [uploadTexturesLoop, hd, List.takeWhile]
    | some img =>
      have hex2 : ∃ q ∈ rest, decode q = none := by
        obtain ⟨q, hq, hqd⟩ := hex
        rcases List.mem_cons.mp hq with hqp | hqr
        · rw [hqp, hd] at hqd
          cases hqd
        · exact ⟨q, hqr, hqd⟩
      have hrec := ih ⟨acc.modelTexturePaths ++ [p],
        acc.modelTextures ++ [⟨p, imageHasTransparency img.pixels⟩]⟩ hex2
      refine ⟨?_, ?_⟩
      · simp only [uploadTexturesLoop, hd]
        exact hrec.1
      · simp only [uploadTexturesLoop, hd]
        rw [hrec.2]
        simp [List.takeWhile, hd]

/-- Claim C8 counterexample: a mesh with texture paths ["a.png", "b.png"] where
"a.png" decodes and "b.png" fails: the refresh returns failure, but the cache
retains the entry already built for "a.png" — a partial cache is retained,
contradicting the claim. -/
theorem c8_partial_cache_retained :
    (ensureModelTexturesUploaded
        (fun p => if p = "a.png" then some ⟨1, 1, [255, 255, 255, 255]⟩ else none)
        { positions := [(0, 0, 0)], texCoords := [(0, 0)], indices := [0, 1, 2],
          texturePaths := ["a.png", "b.png"], submeshes := [] }
        emptyDx12Cache).1 = false ∧
    (ensureModelTexturesUploaded
        (fun p => if p = "a.png" then some ⟨1, 1, [255, 255, 255, 255]⟩ else none)
        { positions := [(0, 0, 0)], texCoords := [(0, 0)], indices := [0, 1, 2],
          texturePaths := ["a.png", "b.png"], submeshes := [] }
        emptyDx12Cache).2.modelTexturePaths = ["a.png"] ∧
    (ensureModelTexturesUploaded
        (fun p => if p = "a.png" then some ⟨1, 1, [255, 255, 255, 255]⟩ else none)
        { positions := [(0, 0, 0)], texCoords := [(0, 0)], indices := [0, 1, 2],
          texturePaths := ["a.png", "b.png"], submeshes := [] }
        emptyDx12Cache).2.modelTextures ≠ [] := by
  refine ⟨by decide, by decide, by decide⟩

/-- Claim C8 (amended): when the texture cache is refreshed and some texture
path fails to decode, the refresh fails and the mesh renders wireframe-only for
that frame; however the entries built for the paths decoded before the failure
remain in the cache state (exactly the longest decodable prefix — never the
full path list, so the next frame retries the refresh). -/
theorem c8_decode_failure_amended (decode : String → Option DecodedImageData)
    (model : ModelData) (st : Dx12TextureCache)
    (hvalid : modelIsValid model = true)
    (hpaths : model.texturePaths ≠ [])
    (hcoords : model.texCoords.length = model.positions.length)
    (hstale : ¬(st.modelTexturePaths = model.texturePaths ∧
        st.modelTextures.length = model.texturePaths.length))
    (hfail : ∃ p ∈ model.texturePaths, decode p = none) :
    (ensureModelTexturesUploaded decode model st).1 = false ∧
    (ensureModelTexturesUploaded decode model st).2.modelTexturePaths =
      model.texturePaths.takeWhile (fun p => (decode p).isSome) ∧
    (ensureModelTexturesUploaded decode model st).2.modelTexturePaths ≠
      model.texturePaths ∧
    (∀ wireOverlayEnabled trianglesProduced : Bool,
        shouldDrawWireOverlay wireOverlayEnabled
          (renderedAnyTexturedGeometry false trianglesProduced) = true) := by
  have hloop := uploadTexturesLoop_fail decode model.texturePaths emptyDx12Cache hfail
  have hensure : ensureModelTexturesUploaded decode model st =
      uploadTexturesLoop decode model.texturePaths emptyDx12Cache := by
    unfold ensureModelTexturesUploaded
    rw [if_neg (by simp [hvalid]),
      if_neg (by
        push_neg
        exact ⟨by simpa using hpaths, hcoords⟩),
      if_neg hstale]
  have htw : model.texturePaths.takeWhile (fun p => (decode p).isSome) ≠
      model.texturePaths := by
    intro heq
    obtain ⟨p, hp, hpd⟩ := hfail
    have := List.mem_takeWhile_imp (l := model.texturePaths)
      (p := fun p => (decode p).isSome) (by rw [heq]; exact hp)
    simp [hpd] at this
  refine ⟨?_, ?_, ?_, ?_⟩
  · rw [hensure]
    exact hloop.1
  · rw [hensure, hloop.2]
    simp [emptyDx12Cache]
  · rw [hensure, hloop.2]
    simpa [emptyDx12Cache] using htw
  · intro w t
    simp [shouldDrawWireOverlay, renderedAnyTexturedGeometry]

/-- Claim C8 amended witness: the two-path mesh of the counterexample. -/
theorem c8_decode_failure_amended_witness :
    (modelIsValid
        { positions := [(0, 0, 0)], texCoords := [(0, 0)], indices := [0, 1, 2],
          texturePaths := ["a.png", "b.png"], submeshes := [] } = true ∧
     ({ positions := [(0, 0, 0)], texCoords := [(0, 0)], indices := [0, 1, 2],
        texturePaths := ["a.png", "b.png"], submeshes := [] } :
          ModelData).texturePaths ≠ [] ∧
     ({ positions := [(0, 0, 0)], texCoords := [(0, 0)], indices := [0, 1, 2],
        texturePaths := ["a.png", "b.png"], submeshes := [] } :
          ModelData).texCoords.length =
       ({ positions := [(0, 0, 0)], texCoords := [(0, 0)], indices := [0, 1, 2],
          texturePaths := ["a.png", "b.png"], submeshes := [] } :
            ModelData).positions.length ∧
     ¬(emptyDx12Cache.modelTexturePaths = ["a.png", "b.png"] ∧
        emptyDx12Cache.modelTextures.length = (["a.png", "b.png"] : List String).length)) ∧
    ((ensureModelTexturesUploaded
        (fun p => if p = "a.png" then some ⟨1, 1, [255, 255, 255, 255]⟩ else none)
        { positions := [(0, 0, 0)], texCoords := [(0, 0)], indices := [0, 1, 2],
          texturePaths := ["a.png", "b.png"], submeshes := [] }
        emptyDx12Cache).1 = false ∧
     (ensureModelTexturesUploaded
        (fun p => if p = "a.png" then some ⟨1, 1, [255, 255, 255, 255]⟩ else none)
        { positions := [(0, 0, 0)], texCoords := [(0, 0)], indices := [0, 1, 2],
          texturePaths := ["a.png", "b.png"], submeshes := [] }
        emptyDx12Cache).2.modelTexturePaths =
       (["a.png", "b.png"] : List String).takeWhile
         (fun p => ((fun p => if p = "a.png" then
            some (⟨1, 1, [255, 255, 255, 255]⟩ : DecodedImageData) else none) p).isSome) ∧
     (ensureModelTexturesUploaded
        (fun p => if p = "a.png" then some ⟨1, 1, [255, 255, 255, 255]⟩ else none)
        { positions := [(0, 0, 0)], texCoords := [(0, 0)], indices := [0, 1, 2],
          texturePaths := ["a.png", "b.png"], submeshes := [] }
        emptyDx12Cache).2.modelTexturePaths ≠ ["a.png", "b.png"] ∧
     (∀ wireOverlayEnabled trianglesProduced : Bool,
        shouldDrawWireOverlay wireOverlayEnabled
          (renderedAnyTexturedGeometry false trianglesProduced) = true)) :=
  ⟨⟨by decide, by decide, by decide, by decide⟩,
   c8_decode_failure_amended
     (fun p => if p = "a.png" then some ⟨1, 1, [255, 255, 255, 255]⟩ else none)
     { positions := [(0, 0, 0)], texCoords := [(0, 0)], indices := [0, 1, 2],
       texturePaths := ["a.png", "b.png"], submeshes := [] }
     emptyDx12Cache (by decide) (by decide) (by decide) (by decide)
     ⟨"b.png", by decide, by decide⟩⟩

end EngineSpec
